import Mathlib

/-!
Shallow embedding of `am2321.c` (userland build, `MODULE` undefined): a tool
that reads an 8-byte frame from an AM2321 humidity/temperature sensor over
I2C, validates it (status byte, CRC16) and decodes physical values.

Modelling conventions:
* `char` is modelled as an unsigned 8-bit value (`Fin 256`).  The program
  targets Linux/ARM (Raspberry Pi, `/dev/i2c-1`), whose ABI makes plain
  `char` unsigned, so `register_data[i]` promoted to `int` is the byte value
  `0..255`, the cast `(unsigned short)register_data[i]` is the byte value,
  and `register_data[2] >= 0x80` compares the byte value itself.
* `double` arithmetic is idealised as exact rational arithmetic (`ℚ`); every
  quantity the claims mention (tenths, the discomfort-index coefficients) is
  an exact decimal fraction.
* The I2C transport (`gen_i2c_slave`, `init_i2c_slave`, `write_i2c_slave`,
  `read_i2c_slave`, `term_i2c_slave`, `destroy_i2c_slave`), `usleep` and the
  `printk`/`printf` sinks are external collaborators; they are modelled by an
  oracle of step outcomes (`I2CSteps`) and by traces of performed operations
  (`Op`), so that control flow, call order and the out-parameter
  `am2321_data` are embedded faithfully.
-/

namespace AM2321

/-- Constant `I2C_SLAVE_MAX_RETRY` from the source. -/
def I2C_SLAVE_MAX_RETRY : Nat := 5

/-- Constant `AM2321_WAIT_WAKEUP` (microseconds) from the source. -/
def AM2321_WAIT_WAKEUP : Nat := 800

/-- Constant `AM2321_WAIT_WRITEMODE` (microseconds) from the source. -/
def AM2321_WAIT_WRITEMODE : Nat := 1500

/-- Constant `AM2321_WAIT_READMODE` (microseconds) from the source. -/
def AM2321_WAIT_READMODE : Nat := 30

/-- Constant `AM2321_WAIT_REFRESH` (microseconds) from the source. -/
def AM2321_WAIT_REFRESH : Nat := 2000000

/-- A C `char` on the target: an unsigned 8-bit byte. -/
abbrev Byte := Fin 256

/-- The contents of the C array `char register_data[8]`, as the mapping from
an index to the byte stored there.  The domain is all of `Nat` (a C pointer
can be indexed anywhere); the program only ever uses indices `0..7`, which
claim C10 makes precise. -/
abbrev Frame := Nat → Byte

/-- `struct am2321` from the source. -/
structure am2321 where
  register_data : Frame

/-- Builds a frame from a list of bytes (missing entries read as 0).  Used
only to write down concrete frames in witnesses and counterexamples. -/
def mkFrame (l : List Byte) : Frame := fun i => l.getD i 0

/-- `calc_data(char high, char low)`: `((high << 8) + low) / 10.0`.  With
unsigned `char`, integer promotion gives the exact integer
`high * 2^8 + low`, then the division by `10.0` is modelled exactly in `ℚ`. -/
def calc_data (high low : Byte) : ℚ :=
  ((high.val : ℚ) * 2 ^ 8 + (low.val : ℚ)) / 10

/-- `calc_hum`: humidity from `register_data[2]`, `register_data[3]`. -/
def calc_hum (am2321_data : am2321) : ℚ :=
  calc_data (am2321_data.register_data 2) (am2321_data.register_data 3)

/-- `calc_temp`: temperature from `register_data[4]`, `register_data[5]`. -/
def calc_temp (am2321_data : am2321) : ℚ :=
  calc_data (am2321_data.register_data 4) (am2321_data.register_data 5)

/-- `calc_discomfort`: the discomfort index from the decoded humidity and
temperature. -/
def calc_discomfort (am2321_data : am2321) : ℚ :=
  let hum := calc_hum am2321_data
  let temp := calc_temp am2321_data
  0.81 * temp + 0.01 * hum * (0.99 * temp - 14.3) + 46.3

/-- `check_err`: returns `-1` when `register_data[2] >= 0x80` (the byte value,
`char` being unsigned on the target), else `0`. -/
def check_err (am2321_data : am2321) : Int :=
  if 0x80 ≤ (am2321_data.register_data 2).val then -1 else 0

/-- One iteration of the inner loop of `check_crc`: if the low bit of the
accumulator is set, shift right by one and XOR with `0xa001`, else just shift
right by one.  The accumulator is a nonnegative C `int`, modelled as `Nat`. -/
def crc_round (acc : Nat) : Nat :=
  if acc % 2 = 1 then (acc / 2) ^^^ 0xa001 else acc / 2

/-- The body of the outer loop of `check_crc` for one byte: XOR the byte into
the accumulator (`clc_crcsum ^= (unsigned short)register_data[i]`, the cast
yielding the byte value), then run the inner loop 8 times. -/
def crc_byte (acc b : Nat) : Nat := crc_round^[8] (acc ^^^ b)

/-- `clc_crcsum` as computed by `check_crc`: accumulator initialised to
`0xffff`, then the loop `for (i = 0; i < 6; i++)` over the frame bytes. -/
def clc_crcsum (am2321_data : am2321) : Nat :=
  (List.range 6).foldl (fun acc i => crc_byte acc (am2321_data.register_data i).val) 0xffff

/-- `rcv_crcsum` as computed by `check_crc`:
`(register_data[7] << 8) + register_data[6]`. -/
def rcv_crcsum (am2321_data : am2321) : Nat :=
  ((am2321_data.register_data 7).val <<< 8) + (am2321_data.register_data 6).val

/-- `check_crc`: `0` when the received checksum equals the computed one,
`-1` otherwise. -/
def check_crc (am2321_data : am2321) : Int :=
  if rcv_crcsum am2321_data = clc_crcsum am2321_data then 0 else -1

/-- The spec's CRC inner step, written from the spec's words (section 4.1):
"if the low bit of the accumulator is 1, right-shift by 1 and XOR with
0xA001; else right-shift by 1 only". -/
def spec_crc_round (acc : Nat) : Nat :=
  if acc % 2 = 1 then (acc / 2) ^^^ 0xa001 else acc / 2

/-- The spec's per-byte XOR, written from the spec's words: "the byte is
XORed into the low 8 bits of the accumulator" only — the high bits of the
accumulator are kept, the low 8 bits are XORed with the byte. -/
def spec_xor_low8 (acc b : Nat) : Nat :=
  2 ^ 8 * (acc / 2 ^ 8) + ((acc % 2 ^ 8) ^^^ (b % 2 ^ 8))

/-- The spec's CRC algorithm over a list of bytes, written from the spec's
words: "initialize accumulator to 0xFFFF; for each of the first 6 bytes of
the frame ..., XOR the byte into the low 8 bits of the accumulator, then
perform 8 iterations" of the shift step. -/
def spec_crc16 (bytes : List Nat) : Nat :=
  bytes.foldl (fun acc b => spec_crc_round^[8] (spec_xor_low8 acc b)) 0xffff

/-- Observable operations that `measure` performs against its external
collaborators, in the order it performs them. -/
inductive Op where
  | geni2c
  | initi2c
  | writeZero
  | writeCmd (data : List Nat)
  | readFrame
  | usleep (usec : Nat)
  | termi2c
  | destroyi2c
deriving DecidableEq

/-- Outcomes of the transport steps of one `measure` call, an oracle standing
for the external I2C collaborator: whether each call succeeds, and the frame
delivered by `read_i2c_slave` when the read succeeds. -/
structure I2CSteps where
  initOk : Bool
  wakeWriteOk : Bool
  writeModeOk : Bool
  cmdWriteOk : Bool
  readResult : Option Frame
  termOk : Bool
  destroyOk : Bool

/-- Which `printk` diagnostic (if any) ends a `measure` call, distinguishing
the transport failures from `check_err`'s error-code message and from
`check_crc`'s checksum message. -/
inductive MeasureOutcome where
  | success
  | transportFail
  | deviceError (code : Nat)
  | crcMismatch
deriving DecidableEq

/-- The observable behaviour of one `measure` call: its `int` return value,
which diagnostic path it took, the contents of the out-parameter
`am2321_data` whenever the 8-byte read filled it, and the trace of external
operations performed. -/
structure MeasureResult where
  ret : Int
  outcome : MeasureOutcome
  data : Option am2321
  trace : List Op

/-- `measure`: one full session.  `gen_i2c_slave` builds the handle;
`init_i2c_slave` opens it; `wakeup_am2321` performs a zero-length write and,
on success, `usleep(AM2321_WAIT_WAKEUP)`; `write_mode_am2321` performs a
second zero-length write; after `usleep(AM2321_WAIT_WRITEMODE)` the command
`{0x03, 0x00, 0x04}` is written; after `usleep(AM2321_WAIT_READMODE)` eight
bytes are read into `register_data`; then `term_i2c_slave` and
`destroy_i2c_slave`; finally `check_err` and `check_crc` on the frame.
Every failing step makes `measure` return `-1` immediately, exactly as the
early `return -1` statements in the source do. -/
def measure (s : I2CSteps) : MeasureResult :=
  let t1 := [Op.geni2c, Op.initi2c]
  if s.initOk = false then ⟨-1, .transportFail, none, t1⟩
  else
    let t2 := t1 ++ [Op.writeZero]
    if s.wakeWriteOk = false then ⟨-1, .transportFail, none, t2⟩
    else
      let t3 := t2 ++ [Op.usleep AM2321_WAIT_WAKEUP, Op.writeZero]
      if s.writeModeOk = false then ⟨-1, .transportFail, none, t3⟩
      else
        let t4 := t3 ++ [Op.usleep AM2321_WAIT_WRITEMODE, Op.writeCmd [0x03, 0x00, 0x04]]
        if s.cmdWriteOk = false then ⟨-1, .transportFail, none, t4⟩
        else
          let t5 := t4 ++ [Op.usleep AM2321_WAIT_READMODE, Op.readFrame]
          match s.readResult with
          | none => ⟨-1, .transportFail, none, t5⟩
          | some fr =>
            let am2321_data : am2321 := ⟨fr⟩
            let t6 := t5 ++ [Op.termi2c]
            if s.termOk = false then ⟨-1, .transportFail, some am2321_data, t6⟩
            else
              let t7 := t6 ++ [Op.destroyi2c]
              if s.destroyOk = false then ⟨-1, .transportFail, some am2321_data, t7⟩
              else if check_err am2321_data = -1 then
                ⟨-1, .deviceError (am2321_data.register_data 2).val, some am2321_data, t7⟩
              else if check_crc am2321_data = -1 then
                ⟨-1, .crcMismatch, some am2321_data, t7⟩
              else ⟨0, .success, some am2321_data, t7⟩

/-- The observable behaviour of one `measure_retry` call: its `int` return
value, the final contents of the out-parameter, how many `measure` calls
were made, and the list of inter-attempt `usleep` durations. -/
structure RetryResult where
  ret : Int
  data : Option am2321
  attempts : Nat
  sleeps : List Nat

/-- The loop of `measure_retry`, with `sess n` the transport oracle of the
`n`-th `measure` call (0-based) and `count` the C variable of that name:
`while (measure(am2321_data) == -1) { if (I2C_SLAVE_MAX_RETRY < ++count)
return -1; usleep(300000); } return 0`. -/
def measure_retry_go (sess : Nat → I2CSteps) (idx count : Nat) : RetryResult :=
  let m := measure (sess idx)
  if m.ret = -1 then
    if I2C_SLAVE_MAX_RETRY < count + 1 then ⟨-1, m.data, idx + 1, []⟩
    else
      let rest := measure_retry_go sess (idx + 1) (count + 1)
      ⟨rest.ret, rest.data, rest.attempts, 300000 :: rest.sleeps⟩
  else ⟨0, m.data, idx + 1, []⟩
termination_by I2C_SLAVE_MAX_RETRY + 1 - count
decreasing_by simp only [I2C_SLAVE_MAX_RETRY] at *; omega

/-- `measure_retry`: the loop started with `count = 0` at the first attempt. -/
def measure_retry (sess : Nat → I2CSteps) : RetryResult :=
  measure_retry_go sess 0 0

/-- The observable behaviour of `main`: the process exit status, whether any
`measure_retry` call was made, and which of the terminal prints happened. -/
structure MainResult where
  exitCode : Int
  measured : Bool
  printedFailure : Bool
  printedHelp : Bool

/-- `main`, after `getopt` has left the last flag character in `format`
(`format` is only meaningfully initialised when a flag was given; the claims
only concern runs with a flag).  `-h` prints the help and returns `1`
before any measurement; otherwise a warm-up `measure_retry` is made and its
result discarded, `usleep(AM2321_WAIT_REFRESH)` passes, and the second
`measure_retry` decides between the failure message and the formatted
output; either way `main` returns `0`. -/
def main_c (format : Char) (sess1 sess2 : Nat → I2CSteps) : MainResult :=
  if format = 'h' then ⟨1, false, false, true⟩
  else
    let _warmup := measure_retry sess1
    let r2 := measure_retry sess2
    if r2.ret = -1 then ⟨0, true, true, false⟩
    else ⟨0, true, false, false⟩

/-- State-level embedding of `calc_hum`: the C function receives
`struct am2321 *` and performs no store through it, so its state semantics
returns the value together with the unchanged struct contents. -/
def calc_hum_st (am2321_data : am2321) : ℚ × am2321 :=
  (calc_hum am2321_data, am2321_data)

/-- State-level embedding of `calc_temp` (no store through the pointer). -/
def calc_temp_st (am2321_data : am2321) : ℚ × am2321 :=
  (calc_temp am2321_data, am2321_data)

/-- State-level embedding of `calc_discomfort` (no store through the
pointer). -/
def calc_discomfort_st (am2321_data : am2321) : ℚ × am2321 :=
  (calc_discomfort am2321_data, am2321_data)

/-- State-level embedding of `check_err` (no store through the pointer). -/
def check_err_st (am2321_data : am2321) : Int × am2321 :=
  (check_err am2321_data, am2321_data)

/-- State-level embedding of `check_crc` (no store through the pointer). -/
def check_crc_st (am2321_data : am2321) : Int × am2321 :=
  (check_crc am2321_data, am2321_data)

/-- The frame whose bytes `[6]` and `[7]` hold the little-endian CRC that
`check_crc` computes over bytes `[0..5]` of `f` (low byte at `[6]`, high
byte at `[7]`), the other bytes taken from `f`. -/
def with_crc (f : Frame) : Frame := fun i =>
  if i = 6 then ⟨clc_crcsum ⟨f⟩ % 2 ^ 8, Nat.mod_lt _ (by norm_num)⟩
  else if i = 7 then ⟨clc_crcsum ⟨f⟩ / 2 ^ 8 % 2 ^ 8, Nat.mod_lt _ (by norm_num)⟩
  else f i

/-- The frame `f` with bit `k` of byte `i` flipped (for `k < 8`; the outer
reduction only keeps the result a byte). -/
def flip_bit (f : Frame) (i k : Nat) : Frame := fun j =>
  if j = i then ⟨((f i).val ^^^ 2 ^ k) % 2 ^ 8, Nat.mod_lt _ (by norm_num)⟩
  else f j

/-- Concrete register bytes of the spec's end-to-end example:
`[0x03, 0x04, 0x02, 0x0A, 0x01, 0x00]`. -/
def ex_regs : Frame := mkFrame [0x03, 0x04, 0x02, 0x0A, 0x01, 0x00]

/-- The spec's end-to-end example frame, its CRC bytes filled in correctly. -/
def ex_frame : am2321 := ⟨with_crc ex_regs⟩

/-- Transport oracle for a fully successful attempt delivering the example
frame. -/
def ok_steps : I2CSteps :=
  ⟨true, true, true, true, some (with_crc ex_regs), true, true⟩

/-- Transport oracle for an attempt that fails at `init_i2c_slave`. -/
def fail_steps : I2CSteps := ⟨false, true, true, true, none, true, true⟩

/-- Session stub that fails the first four attempts and succeeds on the
fifth. -/
def stub5 : Nat → I2CSteps := fun n => if n = 4 then ok_steps else fail_steps

/-- Session stub whose every attempt fails. -/
def stub_fail : Nat → I2CSteps := fun _ => fail_steps

/-- Transport oracle for an attempt whose transport fully succeeds but
delivers an all-`0xFF` frame, which fails both `check_err` and `check_crc`. -/
def bad_frame_steps : I2CSteps :=
  ⟨true, true, true, true, some (mkFrame (List.replicate 8 0xFF)), true, true⟩

/-- Transport oracle of the C6 counterexample: `init_i2c_slave` succeeds but
the wake-up write fails. -/
def leak_steps : I2CSteps := ⟨true, false, true, true, some ex_regs, true, true⟩

/-- Concrete witness frame for C10. -/
def c10_frame : Frame := mkFrame [1, 2, 3, 4, 5, 6, 7, 8]

/-- A frame agreeing with `c10_frame` on indices `0..7` and differing beyond
them. -/
def c10_frame_tail : Frame := fun i => if i < 8 then c10_frame i else 37

theorem xor_low8_eq {acc b : Nat} (hb : b < 2 ^ 8) : spec_xor_low8 acc b = acc ^^^ b := by
  have hxb : (acc % 2 ^ 8) ^^^ (b % 2 ^ 8) < 2 ^ 8 :=
    Nat.xor_lt_two_pow (Nat.mod_lt _ (by norm_num)) (Nat.mod_lt _ (by norm_num))
  apply Nat.eq_of_testBit_eq
  intro j
  rw [spec_xor_low8, Nat.testBit_mul_pow_two_add _ hxb]
  by_cases hj : j < 8
  · rw [if_pos hj]
    simp only [Nat.testBit_xor, Nat.testBit_mod_two_pow]
    simp [hj]
  · have hdiv : acc / 2 ^ 8 = acc >>> 8 := (Nat.shiftRight_eq_div_pow acc 8).symm
    have hbj : b.testBit j = false :=
      Nat.testBit_lt_two_pow
        (lt_of_lt_of_le hb (Nat.pow_le_pow_right (by norm_num) (Nat.le_of_not_lt hj)))
    have hjj : 8 + (j - 8) = j := by omega
    rw [if_neg hj, hdiv]
    simp [hjj, hbj]

theorem spec_step_eq {acc b : Nat} (hb : b < 2 ^ 8) :
    spec_crc_round^[8] (spec_xor_low8 acc b) = crc_byte acc b := by
  rw [xor_low8_eq hb]; rfl

/-- C1: for every 8-byte frame, the CRC value that `check_crc` computes over
bytes `[0..5]` (its `clc_crcsum` accumulator) equals the spec's algorithm:
accumulator starts at `0xFFFF`, each of the first six bytes in order is
XORed into the low 8 bits of the accumulator only, then 8 shift/XOR-`0xA001`
iterations follow (reflected Modbus CRC16). -/
theorem check_crc_matches_spec_algorithm (am2321_data : am2321) :
    clc_crcsum am2321_data =
      spec_crc16 [(am2321_data.register_data 0).val, (am2321_data.register_data 1).val,
        (am2321_data.register_data 2).val, (am2321_data.register_data 3).val,
        (am2321_data.register_data 4).val, (am2321_data.register_data 5).val] := by
  have h : ∀ i : Nat, (am2321_data.register_data i).val < 2 ^ 8 := fun i =>
    (am2321_data.register_data i).isLt
  symm
  simp only [spec_crc16, List.foldl]
  rw [spec_step_eq (h 0), spec_step_eq (h 1), spec_step_eq (h 2), spec_step_eq (h 3),
    spec_step_eq (h 4), spec_step_eq (h 5)]
  rfl

theorem crc_round_lt {acc : Nat} (h : acc < 2 ^ 16) : crc_round acc < 2 ^ 16 := by
  unfold crc_round
  split
  · exact Nat.xor_lt_two_pow (by omega) (by norm_num)
  · omega

theorem crc_iterate_lt {acc : Nat} (h : acc < 2 ^ 16) (n : Nat) : crc_round^[n] acc < 2 ^ 16 := by
  induction n generalizing acc with
  | zero => simpa using h
  | succ n ih => rw [Function.iterate_succ_apply]; exact ih (crc_round_lt h)

theorem crc_byte_lt {acc b : Nat} (ha : acc < 2 ^ 16) (hb : b < 2 ^ 16) :
    crc_byte acc b < 2 ^ 16 :=
  crc_iterate_lt (Nat.xor_lt_two_pow ha hb) 8

theorem clc_crcsum_lt (am2321_data : am2321) : clc_crcsum am2321_data < 2 ^ 16 := by
  have h : ∀ i : Nat, (am2321_data.register_data i).val < 2 ^ 16 := fun i =>
    lt_trans (am2321_data.register_data i).isLt (by norm_num)
  show crc_byte (crc_byte (crc_byte (crc_byte (crc_byte
    (crc_byte 0xffff (am2321_data.register_data 0).val) (am2321_data.register_data 1).val)
    (am2321_data.register_data 2).val) (am2321_data.register_data 3).val)
    (am2321_data.register_data 4).val) (am2321_data.register_data 5).val < 2 ^ 16
  exact crc_byte_lt (crc_byte_lt (crc_byte_lt (crc_byte_lt (crc_byte_lt
    (crc_byte_lt (by norm_num) (h 0)) (h 1)) (h 2)) (h 3)) (h 4)) (h 5)

theorem clc_crcsum_congr {f g : Frame} (h : ∀ i, i < 6 → f i = g i) :
    clc_crcsum ⟨f⟩ = clc_crcsum ⟨g⟩ := by
  show crc_byte (crc_byte (crc_byte (crc_byte (crc_byte
    (crc_byte 0xffff (f 0).val) (f 1).val) (f 2).val) (f 3).val) (f 4).val) (f 5).val = _
  rw [h 0 (by norm_num), h 1 (by norm_num), h 2 (by norm_num), h 3 (by norm_num),
    h 4 (by norm_num), h 5 (by norm_num)]
  rfl

theorem xor_two_pow_ne (b k : Nat) : b ^^^ 2 ^ k ≠ b := by
  intro h
  have h3 := congrArg (fun x => b ^^^ x) h
  simp only [← Nat.xor_assoc, Nat.xor_self, Nat.zero_xor] at h3
  have h4 : 0 < 2 ^ k := pow_pos (by norm_num) k
  omega

theorem with_crc_byte_lt6 (f : Frame) {i : Nat} (hi : i < 6) : with_crc f i = f i := by
  unfold with_crc
  rw [if_neg (by omega), if_neg (by omega)]

theorem with_crc_val6 (f : Frame) : (with_crc f 6).val = clc_crcsum ⟨f⟩ % 256 := rfl

theorem with_crc_val7 (f : Frame) : (with_crc f 7).val = clc_crcsum ⟨f⟩ / 256 := by
  have h := clc_crcsum_lt ⟨f⟩
  show clc_crcsum ⟨f⟩ / 2 ^ 8 % 2 ^ 8 = _
  have h16 : clc_crcsum ⟨f⟩ < 65536 := by
    calc clc_crcsum ⟨f⟩ < 2 ^ 16 := h
    _ = 65536 := by norm_num
  norm_num
  omega

theorem rcv_with_crc (f : Frame) : rcv_crcsum ⟨with_crc f⟩ = clc_crcsum ⟨f⟩ := by
  unfold rcv_crcsum
  show (with_crc f 7).val <<< 8 + (with_crc f 6).val = _
  rw [with_crc_val6, with_crc_val7, Nat.shiftLeft_eq]
  norm_num
  omega

theorem clc_with_crc (f : Frame) : clc_crcsum ⟨with_crc f⟩ = clc_crcsum ⟨f⟩ :=
  clc_crcsum_congr fun _ hi => with_crc_byte_lt6 f hi

/-- C2: for every frame of register bytes, completing it with the computed
CRC16 stored little-endian (low byte at index 6, high byte at index 7)
makes `check_crc` succeed, and flipping any single bit of byte 6 or of
byte 7 of the completed frame makes `check_crc` fail. -/
theorem crc_roundtrip_and_bitflip (f : Frame) :
    check_crc ⟨with_crc f⟩ = 0 ∧
    ∀ k, k < 8 →
      check_crc ⟨flip_bit (with_crc f) 6 k⟩ = -1 ∧
      check_crc ⟨flip_bit (with_crc f) 7 k⟩ = -1 := by
  have hlt : clc_crcsum ⟨f⟩ < 65536 := by
    calc clc_crcsum ⟨f⟩ < 2 ^ 16 := clc_crcsum_lt ⟨f⟩
    _ = 65536 := by norm_num
  refine ⟨?_, ?_⟩
  · unfold check_crc
    rw [if_pos (by rw [rcv_with_crc, clc_with_crc])]
  · intro k hk
    have hpk : (2 : Nat) ^ k < 256 := by
      calc (2 : Nat) ^ k < 2 ^ 8 := Nat.pow_lt_pow_right (by norm_num) hk
      _ = 256 := by norm_num
    constructor
    · -- flip a bit of the low CRC byte (index 6)
      have hclc : clc_crcsum ⟨flip_bit (with_crc f) 6 k⟩ = clc_crcsum ⟨f⟩ := by
        rw [clc_crcsum_congr (g := with_crc f) fun i hi => by
          unfold flip_bit; rw [if_neg (by omega)]]
        exact clc_with_crc f
      have hb6 : (flip_bit (with_crc f) 6 k 6).val =
          (clc_crcsum ⟨f⟩ % 256) ^^^ 2 ^ k := by
        show ((with_crc f 6).val ^^^ 2 ^ k) % 2 ^ 8 = _
        rw [with_crc_val6]
        exact Nat.mod_eq_of_lt (Nat.xor_lt_two_pow (by norm_num; omega) (by norm_num; omega))
      have hb7 : (flip_bit (with_crc f) 6 k 7).val = clc_crcsum ⟨f⟩ / 256 := by
        show (if (7 : Nat) = 6 then _ else with_crc f 7).val = _
        rw [if_neg (by omega)]
        exact with_crc_val7 f
      have hne : (clc_crcsum ⟨f⟩ % 256) ^^^ 2 ^ k ≠ clc_crcsum ⟨f⟩ % 256 :=
        xor_two_pow_ne _ k
      unfold check_crc
      rw [if_neg ?_]
      rw [hclc]
      unfold rcv_crcsum
      show (flip_bit (with_crc f) 6 k 7).val <<< 8 + (flip_bit (with_crc f) 6 k 6).val ≠ _
      rw [hb6, hb7, Nat.shiftLeft_eq]
      norm_num
      omega
    · -- flip a bit of the high CRC byte (index 7)
      have hclc : clc_crcsum ⟨flip_bit (with_crc f) 7 k⟩ = clc_crcsum ⟨f⟩ := by
        rw [clc_crcsum_congr (g := with_crc f) fun i hi => by
          unfold flip_bit; rw [if_neg (by omega)]]
        exact clc_with_crc f
      have hb6 : (flip_bit (with_crc f) 7 k 6).val = clc_crcsum ⟨f⟩ % 256 := by
        show (if (6 : Nat) = 7 then _ else with_crc f 6).val = _
        rw [if_neg (by omega)]
        exact with_crc_val6 f
      have hb7 : (flip_bit (with_crc f) 7 k 7).val =
          (clc_crcsum ⟨f⟩ / 256) ^^^ 2 ^ k := by
        show ((with_crc f 7).val ^^^ 2 ^ k) % 2 ^ 8 = _
        rw [with_crc_val7]
        refine Nat.mod_eq_of_lt (Nat.xor_lt_two_pow ?_ (by norm_num; omega))
        norm_num
        omega
      have hne : (clc_crcsum ⟨f⟩ / 256) ^^^ 2 ^ k ≠ clc_crcsum ⟨f⟩ / 256 :=
        xor_two_pow_ne _ k
      unfold check_crc
      rw [if_neg ?_]
      rw [hclc]
      unfold rcv_crcsum
      show (flip_bit (with_crc f) 7 k 7).val <<< 8 + (flip_bit (with_crc f) 7 k 6).val ≠ _
      rw [hb6, hb7, Nat.shiftLeft_eq]
      norm_num
      omega

/-- Witness for C2 at the example register bytes, with bit 0 of the low CRC
byte and bit 7 of the high CRC byte flipped. -/
theorem crc_roundtrip_and_bitflip_witness :
    check_crc ⟨with_crc ex_regs⟩ = 0 ∧
    check_crc ⟨flip_bit (with_crc ex_regs) 6 0⟩ = -1 ∧
    check_crc ⟨flip_bit (with_crc ex_regs) 7 7⟩ = -1 :=
  ⟨(crc_roundtrip_and_bitflip ex_regs).1,
   ((crc_roundtrip_and_bitflip ex_regs).2 0 (by norm_num)).1,
   ((crc_roundtrip_and_bitflip ex_regs).2 7 (by norm_num)).2⟩

/-- C3: `check_err` signals the device error (returns `-1`) exactly when
frame byte `[2]` has its high bit set, i.e. its value is at least `0x80`;
in particular it fails on status bytes `0x80` and `0xFF` and succeeds on
`0x00` and `0x7F`. -/
theorem check_err_iff_high_bit :
    (∀ am2321_data : am2321,
      check_err am2321_data = -1 ↔ 0x80 ≤ (am2321_data.register_data 2).val) ∧
    check_err ⟨mkFrame [0, 0, 0x80]⟩ = -1 ∧ check_err ⟨mkFrame [0, 0, 0xFF]⟩ = -1 ∧
    check_err ⟨mkFrame [0, 0, 0x00]⟩ = 0 ∧ check_err ⟨mkFrame [0, 0, 0x7F]⟩ = 0 := by
  refine ⟨fun d => ?_, by decide, by decide, by decide, by decide⟩
  unfold check_err
  split
  · simp_all
  · simp_all

/-- C4: `calc_data` returns `((high << 8) + low) / 10.0` with the 16-bit
field unsigned; the spec's three sample values hold, and `calc_hum` /
`calc_temp` apply it to frame bytes `[2],[3]` / `[4],[5]`. -/
theorem calc_data_spec :
    (∀ high low : Byte,
      calc_data high low = ((high.val : ℚ) * 2 ^ 8 + (low.val : ℚ)) / 10) ∧
    calc_data 0x00 0x00 = 0 ∧ calc_data 0x01 0x00 = 25.6 ∧ calc_data 0x00 0x0A = 1 ∧
    (∀ am2321_data : am2321,
      calc_hum am2321_data =
        calc_data (am2321_data.register_data 2) (am2321_data.register_data 3) ∧
      calc_temp am2321_data =
        calc_data (am2321_data.register_data 4) (am2321_data.register_data 5)) := by
  refine ⟨fun _ _ => rfl, by norm_num [calc_data], ?_, ?_, fun _ => ⟨rfl, rfl⟩⟩
  · show (((0x01 : Byte).val : ℚ) * 2 ^ 8 + ((0x00 : Byte).val : ℚ)) / 10 = 25.6
    norm_num [show ((0x01 : Byte)).val = 1 from rfl, show ((0x00 : Byte)).val = 0 from rfl]
  · show (((0x00 : Byte).val : ℚ) * 2 ^ 8 + ((0x0A : Byte).val : ℚ)) / 10 = 1
    norm_num [show ((0x0A : Byte)).val = 10 from rfl, show ((0x00 : Byte)).val = 0 from rfl]

set_option maxRecDepth 100000 in
/-- C8: `calc_discomfort` returns
`0.81*temp + 0.01*hum*(0.99*temp - 14.3) + 46.3` for the decoded temperature
and humidity of the frame, and on the example frame
`[0x03, 0x04, 0x02, 0x0A, 0x01, 0x00]` completed with its correct CRC the
decoded humidity is `52.2`, the temperature is `25.6`, the CRC check passes
and the discomfort index is the formula's value at those readings. -/
theorem calc_discomfort_spec :
    (∀ am2321_data : am2321,
      calc_discomfort am2321_data =
        0.81 * calc_temp am2321_data +
          0.01 * calc_hum am2321_data * (0.99 * calc_temp am2321_data - 14.3) + 46.3) ∧
    calc_hum ex_frame = 52.2 ∧ calc_temp ex_frame = 25.6 ∧ check_crc ex_frame = 0 ∧
    calc_discomfort ex_frame = 0.81 * 25.6 + 0.01 * 52.2 * (0.99 * 25.6 - 14.3) + 46.3 := by
  refine ⟨fun _ => rfl, ?_, ?_, by decide, ?_⟩
  · show (((0x02 : Byte).val : ℚ) * 2 ^ 8 + ((0x0A : Byte).val : ℚ)) / 10 = 52.2
    norm_num [show ((0x02 : Byte)).val = 2 from rfl, show ((0x0A : Byte)).val = 10 from rfl]
  · show (((0x01 : Byte).val : ℚ) * 2 ^ 8 + ((0x00 : Byte).val : ℚ)) / 10 = 25.6
    norm_num [show ((0x01 : Byte)).val = 1 from rfl, show ((0x00 : Byte)).val = 0 from rfl]
  · have hh : calc_hum ex_frame = 52.2 := by
      show (((0x02 : Byte).val : ℚ) * 2 ^ 8 + ((0x0A : Byte).val : ℚ)) / 10 = 52.2
      norm_num [show ((0x02 : Byte)).val = 2 from rfl, show ((0x0A : Byte)).val = 10 from rfl]
    have ht : calc_temp ex_frame = 25.6 := by
      show (((0x01 : Byte).val : ℚ) * 2 ^ 8 + ((0x00 : Byte).val : ℚ)) / 10 = 25.6
      norm_num [show ((0x01 : Byte)).val = 1 from rfl, show ((0x00 : Byte)).val = 0 from rfl]
    unfold calc_discomfort
    rw [hh, ht]

/-- C10: the decoding and validation operations do not modify the frame (the
state semantics of each returns the struct unchanged), and each of them
depends only on frame indices `0` through `7`: any two frames agreeing
there give identical results. -/
theorem frame_ops_pure_and_local :
    (∀ am2321_data : am2321,
      (calc_hum_st am2321_data).2 = am2321_data ∧
      (calc_temp_st am2321_data).2 = am2321_data ∧
      (calc_discomfort_st am2321_data).2 = am2321_data ∧
      (check_err_st am2321_data).2 = am2321_data ∧
      (check_crc_st am2321_data).2 = am2321_data) ∧
    (∀ f g : Frame, (∀ i, i < 8 → f i = g i) →
      calc_hum ⟨f⟩ = calc_hum ⟨g⟩ ∧ calc_temp ⟨f⟩ = calc_temp ⟨g⟩ ∧
      calc_discomfort ⟨f⟩ = calc_discomfort ⟨g⟩ ∧ check_err ⟨f⟩ = check_err ⟨g⟩ ∧
      check_crc ⟨f⟩ = check_crc ⟨g⟩) := by
  constructor
  · exact fun _ => ⟨rfl, rfl, rfl, rfl, rfl⟩
  · intro f g h
    have hum : calc_hum ⟨f⟩ = calc_hum ⟨g⟩ := by
      unfold calc_hum
      show calc_data (f 2) (f 3) = calc_data (g 2) (g 3)
      rw [h 2 (by norm_num), h 3 (by norm_num)]
    have temp : calc_temp ⟨f⟩ = calc_temp ⟨g⟩ := by
      unfold calc_temp
      show calc_data (f 4) (f 5) = calc_data (g 4) (g 5)
      rw [h 4 (by norm_num), h 5 (by norm_num)]
    have dis : calc_discomfort ⟨f⟩ = calc_discomfort ⟨g⟩ := by
      unfold calc_discomfort
      rw [hum, temp]
    have err : check_err ⟨f⟩ = check_err ⟨g⟩ := by
      unfold check_err
      show (if 0x80 ≤ (f 2).val then (-1 : Int) else 0) = _
      rw [h 2 (by norm_num)]
    have crc : check_crc ⟨f⟩ = check_crc ⟨g⟩ := by
      unfold check_crc rcv_crcsum
      show (if (f 7).val <<< 8 + (f 6).val = clc_crcsum ⟨f⟩ then (0 : Int) else -1) = _
      rw [h 6 (by norm_num), h 7 (by norm_num), clc_crcsum_congr fun i hi => h i (by omega)]
    exact ⟨hum, temp, dis, err, crc⟩

/-- Witness for C10: two concrete frames agreeing on indices `0..7` and
differing at index 8 give identical humidity and CRC results. -/
theorem frame_ops_pure_and_local_witness :
    calc_hum ⟨c10_frame⟩ = calc_hum ⟨c10_frame_tail⟩ ∧
    check_crc ⟨c10_frame⟩ = check_crc ⟨c10_frame_tail⟩ := by
  have h := frame_ops_pure_and_local.2 c10_frame c10_frame_tail (by decide)
  exact ⟨h.1, h.2.2.2.2⟩

theorem measure_retry_go_done (sess : Nat → I2CSteps) (idx count : Nat)
    (h : ¬(measure (sess idx)).ret = -1) :
    measure_retry_go sess idx count = ⟨0, (measure (sess idx)).data, idx + 1, []⟩ := by
  rw [measure_retry_go]
  simp [h]

theorem measure_retry_go_exhaust (sess : Nat → I2CSteps) (idx count : Nat)
    (h : (measure (sess idx)).ret = -1) (hc : I2C_SLAVE_MAX_RETRY < count + 1) :
    measure_retry_go sess idx count = ⟨-1, (measure (sess idx)).data, idx + 1, []⟩ := by
  rw [measure_retry_go]
  simp [h, hc]

theorem measure_retry_go_fail_step (sess : Nat → I2CSteps) (idx count : Nat)
    (h : (measure (sess idx)).ret = -1) (hc : ¬I2C_SLAVE_MAX_RETRY < count + 1) :
    measure_retry_go sess idx count =
      ⟨(measure_retry_go sess (idx + 1) (count + 1)).ret,
       (measure_retry_go sess (idx + 1) (count + 1)).data,
       (measure_retry_go sess (idx + 1) (count + 1)).attempts,
       300000 :: (measure_retry_go sess (idx + 1) (count + 1)).sleeps⟩ := by
  rw [measure_retry_go]
  simp [h, hc]

theorem measure_retry_go_bounds (sess : Nat → I2CSteps) :
    ∀ n idx count, 6 - count ≤ n →
      idx < (measure_retry_go sess idx count).attempts ∧
      (measure_retry_go sess idx count).attempts ≤ idx + 1 + (I2C_SLAVE_MAX_RETRY - count) ∧
      (measure_retry_go sess idx count).sleeps =
        List.replicate ((measure_retry_go sess idx count).attempts - (idx + 1)) 300000 := by
  intro n
  induction n with
  | zero =>
    intro idx count hc
    by_cases h : (measure (sess idx)).ret = -1
    · rw [measure_retry_go_exhaust sess idx count h (by simp only [I2C_SLAVE_MAX_RETRY]; omega)]
      dsimp only
      simp only [I2C_SLAVE_MAX_RETRY]
      refine ⟨by omega, by omega, by simp⟩
    · rw [measure_retry_go_done sess idx count h]
      dsimp only
      simp only [I2C_SLAVE_MAX_RETRY]
      refine ⟨by omega, by omega, by simp⟩
  | succ n ih =>
    intro idx count hc
    by_cases h : (measure (sess idx)).ret = -1
    · by_cases hcnt : I2C_SLAVE_MAX_RETRY < count + 1
      · rw [measure_retry_go_exhaust sess idx count h hcnt]
        dsimp only
        simp only [I2C_SLAVE_MAX_RETRY]
        refine ⟨by omega, by omega, by simp⟩
      · rw [measure_retry_go_fail_step sess idx count h hcnt]
        obtain ⟨h1, h2, h3⟩ := ih (idx + 1) (count + 1) (by omega)
        dsimp only
        simp only [I2C_SLAVE_MAX_RETRY] at hcnt h2 ⊢
        refine ⟨by omega, by omega, ?_⟩
        rw [h3]
        have he : (measure_retry_go sess (idx + 1) (count + 1)).attempts - (idx + 1) =
            ((measure_retry_go sess (idx + 1) (count + 1)).attempts - (idx + 1 + 1)) + 1 := by
          omega
        rw [he, List.replicate_succ]
    · rw [measure_retry_go_done sess idx count h]
      dsimp only
      simp only [I2C_SLAVE_MAX_RETRY]
      refine ⟨by omega, by omega, by simp⟩

theorem measure_retry_all_fail (sess : Nat → I2CSteps)
    (h : ∀ n, n < 6 → (measure (sess n)).ret = -1) :
    (measure_retry sess).ret = -1 ∧ (measure_retry sess).attempts = 6 := by
  have e0 := measure_retry_go_fail_step sess 0 0 (h 0 (by norm_num))
    (by simp only [I2C_SLAVE_MAX_RETRY]; omega)
  have e1 := measure_retry_go_fail_step sess 1 1 (h 1 (by norm_num))
    (by simp only [I2C_SLAVE_MAX_RETRY]; omega)
  have e2 := measure_retry_go_fail_step sess 2 2 (h 2 (by norm_num))
    (by simp only [I2C_SLAVE_MAX_RETRY]; omega)
  have e3 := measure_retry_go_fail_step sess 3 3 (h 3 (by norm_num))
    (by simp only [I2C_SLAVE_MAX_RETRY]; omega)
  have e4 := measure_retry_go_fail_step sess 4 4 (h 4 (by norm_num))
    (by simp only [I2C_SLAVE_MAX_RETRY]; omega)
  have e5 := measure_retry_go_exhaust sess 5 5 (h 5 (by norm_num))
    (by simp only [I2C_SLAVE_MAX_RETRY]; omega)
  unfold measure_retry
  rw [e0, e1, e2, e3, e4, e5]
  exact ⟨rfl, rfl⟩

/-- C5: `measure_retry` makes at most 6 `measure` calls and sleeps a fixed
300000 microseconds between consecutive calls (one sleep fewer than calls,
no backoff); when the first four attempts fail and the fifth succeeds it
returns `0` with the fifth attempt's data after exactly 5 calls; when the
first six attempts all fail it returns `-1` after exactly 6 calls (the
`-1` return telling the caller no valid reading was produced). -/
theorem measure_retry_spec :
    (∀ sess, (measure_retry sess).attempts ≤ 6 ∧
      (measure_retry sess).sleeps =
        List.replicate ((measure_retry sess).attempts - 1) 300000) ∧
    (∀ sess, (∀ n, n < 4 → (measure (sess n)).ret = -1) → (measure (sess 4)).ret = 0 →
      (measure_retry sess).ret = 0 ∧
      (measure_retry sess).data = (measure (sess 4)).data ∧
      (measure_retry sess).attempts = 5) ∧
    (∀ sess, (∀ n, n < 6 → (measure (sess n)).ret = -1) →
      (measure_retry sess).ret = -1 ∧ (measure_retry sess).attempts = 6) := by
  refine ⟨fun sess => ?_, fun sess h h4 => ?_, fun sess h => measure_retry_all_fail sess h⟩
  · obtain ⟨h1, h2, h3⟩ := measure_retry_go_bounds sess 6 0 0 (by omega)
    simp only [I2C_SLAVE_MAX_RETRY] at h2
    unfold measure_retry
    exact ⟨by omega, h3⟩
  · have e0 := measure_retry_go_fail_step sess 0 0 (h 0 (by norm_num))
      (by simp only [I2C_SLAVE_MAX_RETRY]; omega)
    have e1 := measure_retry_go_fail_step sess 1 1 (h 1 (by norm_num))
      (by simp only [I2C_SLAVE_MAX_RETRY]; omega)
    have e2 := measure_retry_go_fail_step sess 2 2 (h 2 (by norm_num))
      (by simp only [I2C_SLAVE_MAX_RETRY]; omega)
    have e3 := measure_retry_go_fail_step sess 3 3 (h 3 (by norm_num))
      (by simp only [I2C_SLAVE_MAX_RETRY]; omega)
    have e4 := measure_retry_go_done sess 4 4 (by rw [h4]; norm_num)
    unfold measure_retry
    rw [e0, e1, e2, e3, e4]
    exact ⟨rfl, rfl, rfl⟩

set_option maxRecDepth 400000 in
/-- Witness for C5: the stub failing attempts 0..3 and succeeding on
attempt 4 yields that attempt's data after 5 calls; the always-failing stub
yields `-1` after 6 calls. -/
theorem measure_retry_spec_witness :
    ((measure_retry stub5).ret = 0 ∧ (measure_retry stub5).data = (measure (stub5 4)).data ∧
      (measure_retry stub5).attempts = 5) ∧
    ((measure_retry stub_fail).ret = -1 ∧ (measure_retry stub_fail).attempts = 6) :=
  ⟨measure_retry_spec.2.1 stub5 (by decide) (by decide),
   measure_retry_spec.2.2 stub_fail (by decide)⟩

theorem check_err_cases (am2321_data : am2321) :
    check_err am2321_data = 0 ∨ check_err am2321_data = -1 := by
  unfold check_err
  split
  · exact Or.inr rfl
  · exact Or.inl rfl

theorem check_crc_cases (am2321_data : am2321) :
    check_crc am2321_data = 0 ∨ check_crc am2321_data = -1 := by
  unfold check_crc
  split
  · exact Or.inl rfl
  · exact Or.inr rfl

/-- C6 counterexample: when `init_i2c_slave` succeeds but the wake-up write
fails, `measure` returns `-1` without ever calling `term_i2c_slave` or
`destroy_i2c_slave` — the open transport is not terminated or released on
this failure path, contradicting the claim. -/
theorem measure_transport_leak :
    leak_steps.initOk = true ∧ (measure leak_steps).ret = -1 ∧
    Op.termi2c ∉ (measure leak_steps).trace ∧ Op.destroyi2c ∉ (measure leak_steps).trace := by
  decide

set_option maxRecDepth 40000 in
/-- C6 (amended): `measure` calls `term_i2c_slave` exactly when every
transport step up to and including the 8-byte read succeeded, and calls
`destroy_i2c_slave` exactly when additionally the termination succeeded; on
every other path — including failures of the wake write, the command write
and the read — it returns without terminating or releasing the transport. -/
theorem measure_release_iff (s : I2CSteps) :
    (Op.termi2c ∈ (measure s).trace ↔
      s.initOk = true ∧ s.wakeWriteOk = true ∧ s.writeModeOk = true ∧ s.cmdWriteOk = true ∧
      s.readResult.isSome = true) ∧
    (Op.destroyi2c ∈ (measure s).trace ↔
      s.initOk = true ∧ s.wakeWriteOk = true ∧ s.writeModeOk = true ∧ s.cmdWriteOk = true ∧
      s.readResult.isSome = true ∧ s.termOk = true) := by
  obtain ⟨i, w, m, c, r, t, dk⟩ := s
  cases i <;> cases w <;> cases m <;> cases c <;> cases r <;> cases t <;> cases dk <;>
    simp [measure, apply_ite MeasureResult.trace]

set_option maxRecDepth 40000 in
/-- C7: one `measure` attempt returns `0` (yields a reading) exactly when
every transport step succeeds and the read frame passes `check_err` and
`check_crc`; and because `check_err` runs before `check_crc`, a frame whose
status byte is bad makes the attempt report the device-error diagnostic,
not the CRC one, regardless of its CRC. -/
theorem measure_yields_reading_iff (s : I2CSteps) :
    ((measure s).ret = 0 ↔
      s.initOk = true ∧ s.wakeWriteOk = true ∧ s.writeModeOk = true ∧ s.cmdWriteOk = true ∧
      s.termOk = true ∧ s.destroyOk = true ∧
      ∃ fr, s.readResult = some fr ∧ check_err ⟨fr⟩ = 0 ∧ check_crc ⟨fr⟩ = 0) ∧
    (∀ fr, s.readResult = some fr → s.initOk = true → s.wakeWriteOk = true →
      s.writeModeOk = true → s.cmdWriteOk = true → s.termOk = true → s.destroyOk = true →
      check_err ⟨fr⟩ = -1 →
      (measure s).outcome = MeasureOutcome.deviceError ((fr 2).val)) := by
  obtain ⟨i, w, m, c, r, t, dk⟩ := s
  constructor
  · rcases r with _ | fr
    · cases i <;> cases w <;> cases m <;> cases c <;> cases t <;> cases dk <;>
        simp [measure, apply_ite MeasureResult.ret]
    · cases i <;> cases w <;> cases m <;> cases c <;> cases t <;> cases dk <;>
        simp [measure, apply_ite MeasureResult.ret]
      rcases check_err_cases ⟨fr⟩ with h | h <;> rcases check_crc_cases ⟨fr⟩ with h2 | h2 <;>
        simp [h, h2]
  · intro fr hr hi hw hm hc ht hdk herr
    subst hi; subst hw; subst hm; subst hc; subst ht; subst hdk; subst hr
    simp [measure, apply_ite MeasureResult.outcome, herr]

set_option maxRecDepth 400000 in
/-- Witness for C7: the all-`0xFF` frame fails both checks and the attempt
reports the device error (status `0xFF`), not the CRC mismatch; the example
frame with a good status and CRC makes the attempt succeed. -/
theorem measure_yields_reading_iff_witness :
    (measure bad_frame_steps).outcome = MeasureOutcome.deviceError 0xFF ∧
    (measure ok_steps).ret = 0 :=
  ⟨(measure_yields_reading_iff bad_frame_steps).2 (mkFrame (List.replicate 8 0xFF))
      rfl rfl rfl rfl rfl rfl rfl (by decide),
   (measure_yields_reading_iff ok_steps).1.mpr
      ⟨rfl, rfl, rfl, rfl, rfl, rfl, with_crc ex_regs, rfl, by decide, by decide⟩⟩

/-- C9: with any flag other than `-h`, when the measuring `measure_retry`
call exhausts its six attempts, `main` prints the failure message and the
process exits with status `0`; with `-h`, `main` prints the help and exits
with the non-zero status `1` before any measurement. -/
theorem main_exit_codes :
    (∀ (format : Char) (sess1 sess2 : Nat → I2CSteps), format ≠ 'h' →
      (∀ n, n < 6 → (measure (sess2 n)).ret = -1) →
      (main_c format sess1 sess2).exitCode = 0 ∧
      (main_c format sess1 sess2).printedFailure = true ∧
      (main_c format sess1 sess2).measured = true) ∧
    (∀ sess1 sess2, (main_c 'h' sess1 sess2).exitCode = 1 ∧
      (main_c 'h' sess1 sess2).exitCode ≠ 0 ∧ (main_c 'h' sess1 sess2).measured = false ∧
      (main_c 'h' sess1 sess2).printedHelp = true) := by
  constructor
  · intro format sess1 sess2 hfmt hfail
    have hr := (measure_retry_all_fail sess2 hfail).1
    unfold main_c
    rw [if_neg hfmt]
    simp [hr]
  · intro sess1 sess2
    unfold main_c
    simp

/-- Witness for C9: the CSV flag with the always-failing stub exits `0`
after printing the failure message. -/
theorem main_exit_codes_witness :
    (main_c 'c' stub_fail stub_fail).exitCode = 0 ∧
    (main_c 'c' stub_fail stub_fail).printedFailure = true :=
  ⟨(main_exit_codes.1 'c' stub_fail stub_fail (by decide) (by decide)).1,
   (main_exit_codes.1 'c' stub_fail stub_fail (by decide) (by decide)).2.1⟩

end AM2321
